import Mathlib

/-!
Verification of the keyword/ATS matching and scoring engine of the
resume-builder repository (`career_toolkit.py`, `production_career_toolkit.py`).

The Python code computes TF-IDF cosine similarity between a resume and a job
description (scikit-learn `TfidfVectorizer` with `stop_words='english'`,
`lowercase=True`, `ngram_range=(1, 2)`), extracts keywords per document, and
combines rule-based sub-scores into composite resume scores.  This file embeds
those computations shallowly:

* strings are tokenized exactly as the vectorizer's default token pattern
  `\b\w\w+\b` does on ASCII text (maximal word-character runs of length ≥ 2,
  lower-cased), stopwords are removed before n-gram generation, and bigrams
  are joined with a space, following scikit-learn's analyzer;
* term counts, document frequencies and all rule-based arithmetic are exact
  (ℕ/ℚ); the genuinely real-valued parts (the idf logarithm and the ℓ²
  normalisation) live in ℝ;
* Python code that returns user-facing message strings instead of raising is
  modelled with an explicit outcome type, and the exceptions scikit-learn or
  Python can raise inside the `try` blocks are modelled with `Except`;
* report-formatting functions are modelled as returning the record of values
  they interpolate into the report string (the surrounding prose is
  presentation only), and the external language-model call used for the "AI
  analysis" text is omitted from the record since no verified property
  mentions it.
-/

/-- A word character for the ASCII fragment of Python's regex `\w`:
letters, digits and underscore. -/
def isWordChar (c : Char) : Bool := c.isAlphanum || c = '_'

/-- Character-wise lower-casing, as Python's `str.lower()` acts on ASCII
text.  (Core's `String.toLower` is extensionally the same map; this
formulation keeps kernel reduction available for concrete inputs.) -/
def lowerString (s : String) : String := (s.data.map Char.toLower).asString

/-- Python's `str.strip()`: remove leading and trailing whitespace. -/
def pyStrip (s : String) : String :=
  ((s.data.dropWhile Char.isWhitespace).reverse.dropWhile Char.isWhitespace).reverse.asString

/-- Lexicographic comparison of character lists by code point. -/
def listLeChars : List Char → List Char → Bool
  | [], _ => true
  | _ :: _, [] => false
  | a :: as, b :: bs =>
    if a.toNat < b.toNat then true
    else if b.toNat < a.toNat then false
    else listLeChars as bs

/-- Lexicographic string order by code point (the order in which
scikit-learn's fitted vocabulary is laid out, for ASCII text). -/
def strLe (a b : String) : Bool := listLeChars a.data b.data

/-- Splits a character list into maximal runs of word characters, dropping
the separating non-word characters.  `acc` holds the current run reversed. -/
def wordRunsAux : List Char → List Char → List (List Char)
  | [], acc => if acc.isEmpty then [] else [acc.reverse]
  | c :: cs, acc =>
    if isWordChar c then
      wordRunsAux cs (c :: acc)
    else if acc.isEmpty then
      wordRunsAux cs []
    else
      acc.reverse :: wordRunsAux cs []

/-- Maximal word-character runs of the lower-cased string, as strings. -/
def wordRuns (s : String) : List String :=
  (wordRunsAux (lowerString s).data []).map List.asString

/-- scikit-learn's default tokenization `\b\w\w+\b` on lower-cased text:
maximal word-character runs of length at least 2. -/
def sklearnTokenize (s : String) : List String :=
  (wordRuns s).filter (fun t => 2 ≤ t.length)

/-- The tokens matched by `re.findall(r'\b[A-Za-z]{3,}\b', text.lower())` in
`calculate_keyword_match`: maximal word-character runs that consist purely of
letters and have length at least 3. -/
def alphaTokens (s : String) : List String :=
  (wordRuns s).filter (fun t => 3 ≤ t.length && t.data.all Char.isAlpha)

/-- scikit-learn's `ENGLISH_STOP_WORDS` (the frozen Glasgow IR stop list used
by `TfidfVectorizer(stop_words='english')`); an external library constant,
reproduced here.  The theorems below depend only on membership of everyday
function words (`and`, `the`, `of`, `to`, ...) and non-membership of content
words (`python`, `developer`, `docker`, `sql`, ...). -/
def englishStopWords : List String :=
  ["a", "about", "above", "across", "after", "afterwards", "again", "against",
   "all", "almost", "alone", "along", "already", "also", "although", "always",
   "am", "among", "amongst", "amoungst", "amount", "an", "and", "another",
   "any", "anyhow", "anyone", "anything", "anyway", "anywhere", "are",
   "around", "as", "at", "back", "be", "became", "because", "become",
   "becomes", "becoming", "been", "before", "beforehand", "behind", "being",
   "below", "beside", "besides", "between", "beyond", "bill", "both",
   "bottom", "but", "by", "call", "can", "cannot", "cant", "co", "con",
   "could", "couldnt", "cry", "de", "describe", "detail", "do", "done",
   "down", "due", "during", "each", "eg", "eight", "either", "eleven",
   "else", "elsewhere", "empty", "enough", "etc", "even", "ever", "every",
   "everyone", "everything", "everywhere", "except", "few", "fifteen",
   "fifty", "fill", "find", "fire", "first", "five", "for", "former",
   "formerly", "forty", "found", "four", "from", "front", "full", "further",
   "get", "give", "go", "had", "has", "hasnt", "have", "he", "hence", "her",
   "here", "hereafter", "hereby", "herein", "hereupon", "hers", "herself",
   "him", "himself", "his", "how", "however", "hundred", "i", "ie", "if",
   "in", "inc", "indeed", "interest", "into", "is", "it", "its", "itself",
   "keep", "last", "latter", "latterly", "least", "less", "ltd", "made",
   "many", "may", "me", "meanwhile", "might", "mill", "mine", "more",
   "moreover", "most", "mostly", "move", "much", "must", "my", "myself",
   "name", "namely", "neither", "never", "nevertheless", "next", "nine",
   "no", "nobody", "none", "noone", "nor", "not", "nothing", "now",
   "nowhere", "of", "off", "often", "on", "once", "one", "only", "onto",
   "or", "other", "others", "otherwise", "our", "ours", "ourselves", "out",
   "over", "own", "part", "per", "perhaps", "please", "put", "rather", "re",
   "same", "see", "seem", "seemed", "seeming", "seems", "serious", "several",
   "she", "should", "show", "side", "since", "sincere", "six", "sixty", "so",
   "some", "somehow", "someone", "something", "sometime", "sometimes",
   "somewhere", "still", "such", "system", "take", "ten", "than", "that",
   "the", "their", "them", "themselves", "then", "thence", "there",
   "thereafter", "thereby", "therefore", "therein", "thereupon", "these",
   "they", "thick", "thin", "third", "this", "those", "though", "three",
   "through", "throughout", "thru", "thus", "to", "together", "too", "top",
   "toward", "towards", "twelve", "twenty", "two", "un", "under", "until",
   "up", "upon", "us", "very", "via", "was", "we", "well", "were", "what",
   "whatever", "when", "whence", "whenever", "where", "whereafter",
   "whereas", "whereby", "wherein", "whereupon", "wherever", "whether",
   "which", "while", "whither", "who", "whoever", "whole", "whom", "whose",
   "why", "will", "with", "within", "without", "would", "yet", "you",
   "your", "yours", "yourself", "yourselves"]

/-- Consecutive bigrams of a token list, joined with a space, as
scikit-learn's `_word_ngrams` produces them for `ngram_range=(1, 2)`. -/
def bigrams : List String → List String
  | a :: b :: rest => (a ++ " " ++ b) :: bigrams (b :: rest)
  | _ => []

/-- scikit-learn's analyzer for `ngram_range=(1, 2)` with English stopwords:
tokenize, drop stopwords, then append bigrams of the remaining tokens. -/
def sklearnAnalyze (s : String) : List String :=
  let toks := (sklearnTokenize s).filter (fun t => ¬ englishStopWords.contains t)
  toks ++ bigrams toks

/-- The vectorizer's vocabulary over a corpus: every term produced by the
analyzer for some document, deduplicated and sorted alphabetically (as
scikit-learn sorts its fitted vocabulary). -/
def sklearnVocab (docs : List String) : List String :=
  List.insertionSort (fun a b => strLe a b = true) (docs.flatMap sklearnAnalyze).dedup

/-- Term count of `t` in document `d` under the analyzer. -/
def termCount (d : String) (t : String) : ℕ := (sklearnAnalyze d).count t

/-- Document frequency of term `t` in a corpus. -/
def docFreq (docs : List String) (t : String) : ℕ :=
  (docs.filter (fun d => (sklearnAnalyze d).contains t)).length

/-- TfidfVectorizer's smoothed idf: `ln((1 + n) / (1 + df)) + 1`. -/
noncomputable def idf (docs : List String) (t : String) : ℝ :=
  Real.log ((1 + docs.length) / (1 + docFreq docs t)) + 1

/-- The unnormalised tf-idf weight of term `t` for document `d` of the
corpus: raw count times idf. -/
noncomputable def tfidfWeight (docs : List String) (d : String) (t : String) : ℝ :=
  termCount d t * idf docs t

/-- The ℓ² norm of a row restricted to the vocabulary `V`. -/
noncomputable def l2norm (V : Finset String) (u : String → ℝ) : ℝ :=
  Real.sqrt (∑ t in V, u t ^ 2)

/-- ℓ² row normalisation as scikit-learn's `normalize` performs it: a zero
norm is replaced by 1 before dividing, so a zero row stays zero. -/
noncomputable def normalizedRow (V : Finset String) (u : String → ℝ) (t : String) : ℝ :=
  u t / (if l2norm V u = 0 then 1 else l2norm V u)

/-- Cosine similarity of two rows over vocabulary `V` (the rows having been
ℓ²-normalised, cosine similarity is their dot product). -/
noncomputable def cosineSim (V : Finset String) (u v : String → ℝ) : ℝ :=
  ∑ t in V, normalizedRow V u t * normalizedRow V v t

/-- The exceptions that can arise inside the Python `try` blocks: the
`ValueError` scikit-learn raises when fitting produces an empty vocabulary,
and Python's `ZeroDivisionError`. -/
inductive PyErr
  | emptyVocabulary
  | zeroDivision
  deriving DecidableEq, Repr

/-- The `str(e)` text of each modelled exception, as interpolated into the
caught-error message. -/
def PyErr.msg : PyErr → String
  | .emptyVocabulary => "empty vocabulary; perhaps the documents only contain stop words"
  | .zeroDivision => "division by zero"

/-- Python division: raises `ZeroDivisionError` on a zero denominator. -/
def pyDiv (a b : ℚ) : Except PyErr ℚ :=
  if b = 0 then .error .zeroDivision else .ok (a / b)

/-- `calculate_tfidf_similarity(resume_text, job_description)` from
`production_career_toolkit.py` (the same vectorize-and-cosine computation is
inlined in `career_toolkit.calculate_ats_score`): fit a TF-IDF vectorizer on
the two-document corpus — raising on an empty vocabulary — and return the
off-diagonal cosine similarity scaled by 100. -/
noncomputable def calculate_tfidf_similarity (resume_text job_description : String) :
    Except PyErr ℝ :=
  let docs := [resume_text, job_description]
  if sklearnVocab docs = [] then
    .error .emptyVocabulary
  else
    .ok (cosineSim (sklearnVocab docs).toFinset
          (tfidfWeight docs resume_text) (tfidfWeight docs job_description) * 100)

/-! ## Keyword extraction (`career_toolkit.extract_keywords`) -/

/-- The single-document vocabulary used by `extract_keywords`, before the
`max_features=50` cap. -/
def ekVocab (text : String) : List String := sklearnVocab [text]

/-- Sort key for ranking features of the one-document corpus by TF-IDF score
descending: for a single document every idf is 1 and the ℓ² normaliser is
shared, so comparing scores is comparing raw term counts.  Python's stable
`sort(reverse=True)` over the alphabetically ordered feature array orders
equal scores alphabetically, which the second disjunct reproduces. -/
def countDescKey (text : String) (a b : String) : Bool :=
  termCount text b < termCount text a
    || (termCount text a == termCount text b && strLe a b)

/-- Rank a feature list by TF-IDF score descending (see `countDescKey`). -/
def rankByScoreDesc (text : String) (features : List String) : List String :=
  List.insertionSort (fun a b => countDescKey text a b = true) features

/-- The fitted feature list under `max_features=50`: the 50 most frequent
vocabulary terms, kept in vocabulary (alphabetical) order, as scikit-learn's
`_limit_features` masks the sorted vocabulary.  (numpy's tie-break among
equal frequencies at the cutoff is implementation-defined; it is modelled
alphabetically here.) -/
def ekFeatures (text : String) : List String :=
  List.insertionSort (fun a b => strLe a b = true)
    ((rankByScoreDesc text (ekVocab text)).take 50)

/-- The squared ℓ² norm of the one-document count row over the capped
feature set, as a natural number. -/
def ekRowSq (text : String) : ℕ :=
  ((ekFeatures text).map (fun t => termCount text t ^ 2)).sum

/-- `extract_keywords(text)` from `career_toolkit.py`: fit a TF-IDF
vectorizer (`stop_words='english'`, `max_features=50`, `ngram_range=(1, 2)`)
on `[text]` — scikit-learn raising on an empty vocabulary — sort the
(feature, score) pairs by score descending, slice the first 20, and keep the
keywords whose score exceeds 0.1.  For the one-document corpus each score is
`count / sqrt(rowSq)`, so `score > 0.1` is the exact integer condition
`100 * count^2 > rowSq`; `keywordWeight_pos_iff` below re-establishes the
connection to the real-valued scores. -/
def extract_keywords (text : String) : Except PyErr (List String) :=
  if ekVocab text = [] then .error .emptyVocabulary
  else
    .ok (((rankByScoreDesc text (ekFeatures text)).take 20).filter
      (fun t => ekRowSq text < 100 * termCount text t ^ 2))

/-- The real-valued TF-IDF score of term `t` that `extract_keywords` ranks
and filters by: the ℓ²-normalised tf-idf row of the one-document corpus
`[text]`, restricted to the capped feature set. -/
noncomputable def keywordWeight (text t : String) : ℝ :=
  normalizedRow (ekFeatures text).toFinset (tfidfWeight [text] text) t

/-! ## The career-toolkit ATS pipeline (`calculate_ats_score`) -/

/-- `matching_keywords` as computed in `calculate_ats_score`:
`set(job_keywords) & set(resume_keywords)`. -/
def matchingKeywords (job_keywords resume_keywords : List String) : Finset String :=
  job_keywords.toFinset ∩ resume_keywords.toFinset

/-- `missing_keywords` as computed in `calculate_ats_score`:
`set(job_keywords) - set(resume_keywords)`. -/
def missingKeywords (job_keywords resume_keywords : List String) : Finset String :=
  job_keywords.toFinset \ resume_keywords.toFinset

/-- The values `create_ats_report` interpolates into its report text (the
surrounding prose is fixed presentation). -/
structure ATSReportData where
  ats_score : ℝ
  matching_keywords : Finset String
  missing_keywords : Finset String
  job_keywords : List String
  resume_keywords : List String
  match_rate : ℚ

/-- `create_ats_report` from `career_toolkit.py`, modelled as the record of
interpolated values.  The match rate is
`len(matching_keywords) / len(job_keywords) * 100`, a Python division that
raises `ZeroDivisionError` on an empty keyword list. -/
def create_ats_report (ats_score : ℝ) (matching missing : Finset String)
    (job_keywords resume_keywords : List String) : Except PyErr ATSReportData := do
  let rate ← pyDiv matching.card job_keywords.length
  return ⟨ats_score, matching, missing, job_keywords, resume_keywords, rate * 100⟩

/-- The body of `calculate_ats_score`'s `try` block, after text extraction:
TF-IDF similarity of the two-document corpus, keyword extraction of either
document, keyword set arithmetic, report assembly. -/
noncomputable def atsBody (resume_text job_description : String) :
    Except PyErr ATSReportData := do
  let ats_score ← calculate_tfidf_similarity resume_text job_description
  let job_keywords ← extract_keywords job_description
  let resume_keywords ← extract_keywords resume_text
  create_ats_report ats_score (matchingKeywords job_keywords resume_keywords)
    (missingKeywords job_keywords resume_keywords) job_keywords resume_keywords

/-- What `calculate_ats_score` hands back to the UI: either a user-facing
message string (precondition failures and caught exceptions both take this
shape — the second tuple component is `None` either way), or the report. -/
inductive ATSOutcome
  | message (text : String)
  | success (report : ATSReportData)

/-- `calculate_ats_score(resume_file, job_description)` from
`career_toolkit.py`.  `resume_file` is `none` when no file was uploaded and
`some resume_text` with the text the PDF extractor returns otherwise; the
guards and the `except` handler each return a message string, never raising
to the caller. -/
noncomputable def calculate_ats_score (resume_file : Option String)
    (job_description : String) : ATSOutcome :=
  match resume_file with
  | none => .message "Please upload a resume file and provide a job description."
  | some resume_text =>
    if pyStrip job_description = "" then
      .message "Please upload a resume file and provide a job description."
    else if resume_text = "" then
      .message "Could not extract text from resume file."
    else
      match atsBody resume_text job_description with
      | .ok report => .success report
      | .error e => .message ("Error calculating ATS score: " ++ e.msg)

/-! ## The production-toolkit ATS pipeline (`calculate_ats_score_advanced`) -/

/-- The `common_words` set filtered out of the job keywords in
`calculate_keyword_match`. -/
def commonWords : List String :=
  ["the", "and", "or", "but", "in", "on", "at", "to", "for", "of", "with",
   "by", "this", "that", "these", "those", "will", "have", "has", "had",
   "can", "could", "should", "would", "may", "might", "must"]

/-- `calculate_keyword_match(resume_text, job_description)` from
`production_career_toolkit.py`: alphabetic tokens of length ≥ 3 from the
lower-cased texts, the common-word stoplist removed from the job side, and
the percentage of job keywords found in the resume (0 when there are no job
keywords). -/
def calculate_keyword_match (resume_text job_description : String) : ℚ :=
  let job_keywords := (alphaTokens job_description).toFinset \ commonWords.toFinset
  let resume_keywords := (alphaTokens resume_text).toFinset
  if job_keywords = ∅ then 0
  else ((job_keywords ∩ resume_keywords).card : ℚ) / job_keywords.card * 100

/-- The numeric values `create_ats_report` (production variant) receives;
the AI-analysis text produced by the external language-model call is
presentation only and is not modelled. -/
structure AdvancedReportData where
  ats_score : ℝ
  tfidf_score : ℝ
  keyword_score : ℚ

/-- Outcome of `calculate_ats_score_advanced`: a user-facing message string
or the report values. -/
inductive AdvancedOutcome
  | message (text : String)
  | success (report : AdvancedReportData)

/-- `calculate_ats_score_advanced(resume_file, job_description)` from
`production_career_toolkit.py`: the same guards as the basic pipeline, then
`ats_score = tfidf_score * 0.6 + keyword_score * 0.4` (decimal literals
taken exactly). -/
noncomputable def calculate_ats_score_advanced (resume_file : Option String)
    (job_description : String) : AdvancedOutcome :=
  match resume_file with
  | none => .message "Please upload a resume file and provide a job description."
  | some resume_text =>
    if pyStrip job_description = "" then
      .message "Please upload a resume file and provide a job description."
    else if resume_text = "" then
      .message "Could not extract text from resume file."
    else
      match calculate_tfidf_similarity resume_text job_description with
      | .error e => .message ("Error calculating ATS score: " ++ e.msg)
      | .ok tfidf_score =>
        let keyword_score := calculate_keyword_match resume_text job_description
        .success ⟨tfidf_score * (6 / 10) + (keyword_score : ℝ) * (4 / 10),
          tfidf_score, keyword_score⟩

/-- `matching_skills` from `find_skill_gaps_advanced`:
`set(current_skills_list) & set(target_skills)`. -/
def matchingSkills (current_skills target_skills : List String) : Finset String :=
  current_skills.toFinset ∩ target_skills.toFinset

/-- `missing_skills` from `find_skill_gaps_advanced`:
`set(target_skills) - set(current_skills_list)`. -/
def missingSkills (current_skills target_skills : List String) : Finset String :=
  target_skills.toFinset \ current_skills.toFinset

/-! ## Rule-based composite scores -/

/-- The fields of the analysis dictionary produced by `analyze_resume_text`
that the scorers read; list-valued entries (`sections_found`,
`skills_found`, `grammar_issues`) are represented by their lengths, which is
all the scorers use. -/
structure ResumeAnalysis where
  sections_found : ℕ
  word_count : ℕ
  skills_found : ℕ
  action_verbs : ℕ
  quantified_achievements : ℕ
  contact_info : Bool
  grammar_issues : ℕ

/-- `calculate_resume_score(analysis)` from `career_toolkit.py`: sections up
to 40 points, a word-count band worth 20/15/10, skills up to 15, action
verbs up to 10 (1.5 points each), quantified achievements up to 10 (2 points
each), contact info 5, clamped to 100 and truncated by `int()` (the score is
non-negative, so truncation is the floor). -/
def calculate_resume_score (a : ResumeAnalysis) : ℤ :=
  let score : ℚ :=
    min 40 ((a.sections_found : ℚ) / 5 * 40)
    + (if 300 ≤ a.word_count ∧ a.word_count ≤ 700 then 20
       else if 200 ≤ a.word_count ∧ a.word_count ≤ 800 then 15
       else 10)
    + min 15 ((a.skills_found : ℚ) * 2)
    + min 10 ((a.action_verbs : ℚ) * (3 / 2))
    + min 10 ((a.quantified_achievements : ℚ) * 2)
    + (if a.contact_info then 5 else 0)
  ⌊min 100 score⌋

/-- Splits a character list into maximal runs of non-whitespace characters:
Python's argument-free `str.split()`. -/
def pySplitAux : List Char → List Char → List (List Char)
  | [], acc => if acc.isEmpty then [] else [acc.reverse]
  | c :: cs, acc =>
    if c.isWhitespace then
      if acc.isEmpty then pySplitAux cs [] else acc.reverse :: pySplitAux cs []
    else
      pySplitAux cs (c :: acc)

/-- Python's `str.split()` with no separator: whitespace-delimited words. -/
def pySplit (s : String) : List String := (pySplitAux s.data []).map List.asString

/-- The score dictionary of `calculate_detailed_scores`; the `structure`,
`content`, `keywords`, `formatting`, `grammar` and `overall` keys carry a
`_score` suffix here because `structure` is a Lean keyword. -/
structure DetailedScores where
  structure_score : ℚ
  content_score : ℚ
  keywords_score : ℚ
  formatting_score : ℚ
  grammar_score : ℚ
  overall_score : ℚ

/-- `calculate_detailed_scores(analysis, resume_text)` from
`career_toolkit.py`.  The dictionary is zero-initialised; the `overall`
entry is then assigned `sum(scores.values()) - scores['overall']`, with
`scores['overall']` still holding its initial 0 — modelled verbatim via
`overall_init`. -/
def calculate_detailed_scores (a : ResumeAnalysis) (resume_text : String) :
    DetailedScores :=
  let overall_init : ℚ := 0
  let structure_score : ℚ := min 25 ((a.sections_found : ℚ) / 4 * 25)
  let content_score : ℚ :=
    (if 300 ≤ a.word_count then 5 else 0)
    + (if 5 ≤ a.action_verbs then 5 else 0)
    + (if 3 ≤ a.quantified_achievements then 5 else 0)
    + (if 5 ≤ a.skills_found then 5 else 0)
    + (if a.contact_info then 5 else 0)
  let keywords_score : ℚ := min 20 ((a.skills_found : ℚ) * 2)
  let formatting_score : ℚ := 15 - (if (pySplit resume_text).length < 200 then 5 else 0)
  let grammar_score : ℚ := max 0 (15 - (a.grammar_issues : ℚ) * 3)
  let overall_score : ℚ :=
    (structure_score + content_score + keywords_score + formatting_score
      + grammar_score + overall_init) - overall_init
  ⟨structure_score, content_score, keywords_score, formatting_score,
    grammar_score, overall_score⟩

/-- The score dictionary of `calculate_detailed_perfection_scores`
(production toolkit); field naming as in `DetailedScores`. -/
structure PerfectionScores where
  structure_score : ℚ
  content_score : ℚ
  keywords_score : ℚ
  formatting_score : ℚ
  professionalism_score : ℚ
  overall_score : ℚ

/-- `calculate_detailed_perfection_scores(analysis, resume_text)` from
`production_career_toolkit.py`, including the same
`sum(values) - scores['overall']` idiom over the zero-initialised `overall`
entry. -/
def calculate_detailed_perfection_scores (a : ResumeAnalysis)
    (_resume_text : String) : PerfectionScores :=
  let overall_init : ℚ := 0
  let structure_score : ℚ := min 25 ((a.sections_found : ℚ) * 5)
  let content_score : ℚ :=
    min 25 ((a.action_verbs : ℚ) * 2 + (a.quantified_achievements : ℚ) * 3)
  let keywords_score : ℚ := min 20 ((a.skills_found : ℚ) * 2)
  let formatting_score : ℚ :=
    min 15 (if 300 ≤ a.word_count ∧ a.word_count ≤ 700 then 15 else 10)
  let professionalism_score : ℚ := min 15 (if a.contact_info then 15 else 10)
  let overall_score : ℚ :=
    (structure_score + content_score + keywords_score + formatting_score
      + professionalism_score + overall_init) - overall_init
  ⟨structure_score, content_score, keywords_score, formatting_score,
    professionalism_score, overall_score⟩

/-! ## Theorems -/

/-- C8: In `calculate_detailed_scores` and
`calculate_detailed_perfection_scores`, assigning the zero-initialised
`overall` field `sum(scores.values()) - scores['overall']` is behaviorally
equivalent to summing the other sub-scores directly: for every analysis
record and resume text the returned `overall` equals the sum of the other
sub-score fields. -/
theorem overall_is_sum_of_subscores (a : ResumeAnalysis) (resume_text : String) :
    (calculate_detailed_scores a resume_text).overall_score =
      (calculate_detailed_scores a resume_text).structure_score
        + (calculate_detailed_scores a resume_text).content_score
        + (calculate_detailed_scores a resume_text).keywords_score
        + (calculate_detailed_scores a resume_text).formatting_score
        + (calculate_detailed_scores a resume_text).grammar_score ∧
    (calculate_detailed_perfection_scores a resume_text).overall_score =
      (calculate_detailed_perfection_scores a resume_text).structure_score
        + (calculate_detailed_perfection_scores a resume_text).content_score
        + (calculate_detailed_perfection_scores a resume_text).keywords_score
        + (calculate_detailed_perfection_scores a resume_text).formatting_score
        + (calculate_detailed_perfection_scores a resume_text).professionalism_score := by
  constructor <;> simp [calculate_detailed_scores, calculate_detailed_perfection_scores]

/-- C9: The matching and missing keyword sets computed by
`calculate_ats_score` partition the job keyword set, and likewise the
matching and missing skill sets of `find_skill_gaps_advanced` partition the
target skill set. -/
theorem matching_missing_partition (job_keywords resume_keywords
    current_skills target_skills : List String) :
    (matchingKeywords job_keywords resume_keywords
        ∪ missingKeywords job_keywords resume_keywords = job_keywords.toFinset ∧
      matchingKeywords job_keywords resume_keywords
        ∩ missingKeywords job_keywords resume_keywords = ∅) ∧
    (matchingSkills current_skills target_skills
        ∪ missingSkills current_skills target_skills = target_skills.toFinset ∧
      matchingSkills current_skills target_skills
        ∩ missingSkills current_skills target_skills = ∅) := by
  refine ⟨⟨?_, ?_⟩, ⟨?_, ?_⟩⟩ <;>
    · ext x
      simp [matchingKeywords, missingKeywords, matchingSkills, missingSkills]
      try tauto

/-- C10: `calculate_resume_score` always returns an integer between 10 and
100 inclusive — every branch of the word-count band contributes at least 10
points, so the minimum attainable composite resume score is 10, not 0. -/
theorem calculate_resume_score_bounds (a : ResumeAnalysis) :
    10 ≤ calculate_resume_score a ∧ calculate_resume_score a ≤ 100 := by
  unfold calculate_resume_score
  constructor
  · rw [Int.le_floor]
    push_cast
    refine le_min (by norm_num) ?_
    have h1 : (0 : ℚ) ≤ min 40 ((a.sections_found : ℚ) / 5 * 40) :=
      le_min (by norm_num) (by positivity)
    have h2 : (10 : ℚ) ≤
        (if 300 ≤ a.word_count ∧ a.word_count ≤ 700 then (20 : ℚ)
         else if 200 ≤ a.word_count ∧ a.word_count ≤ 800 then 15 else 10) := by
      split
      · norm_num
      · split <;> norm_num
    have h3 : (0 : ℚ) ≤ min 15 ((a.skills_found : ℚ) * 2) :=
      le_min (by norm_num) (by positivity)
    have h4 : (0 : ℚ) ≤ min 10 ((a.action_verbs : ℚ) * (3 / 2)) :=
      le_min (by norm_num) (by positivity)
    have h5 : (0 : ℚ) ≤ min 10 ((a.quantified_achievements : ℚ) * 2) :=
      le_min (by norm_num) (by positivity)
    have h6 : (0 : ℚ) ≤ (if a.contact_info then (5 : ℚ) else 0) := by
      split <;> norm_num
    linarith
  · refine le_trans (Int.floor_le_floor (min_le_left _ _)) ?_
    norm_num

/-- C7: holding every other field of the analysis record fixed, increasing
the `quantified_achievements` count or the `action_verbs` count never
decreases `calculate_resume_score`; their contributions are capped at 10
points each by the `min`. -/
theorem calculate_resume_score_monotone (a : ResumeAnalysis)
    (v v' q q' : ℕ) (hv : v ≤ v') (hq : q ≤ q') :
    calculate_resume_score { a with action_verbs := v, quantified_achievements := q }
      ≤ calculate_resume_score { a with action_verbs := v', quantified_achievements := q' } := by
  unfold calculate_resume_score
  apply Int.floor_le_floor
  apply min_le_min (le_refl _)
  have hv' : ((v : ℚ)) * (3 / 2) ≤ (v' : ℚ) * (3 / 2) := by
    have : (v : ℚ) ≤ (v' : ℚ) := by exact_mod_cast hv
    nlinarith
  have hq' : ((q : ℚ)) * 2 ≤ (q' : ℚ) * 2 := by
    have : (q : ℚ) ≤ (q' : ℚ) := by exact_mod_cast hq
    nlinarith
  gcongr

/-- Witness for C7 at a concrete record: raising the verb count from 1 to 3
and the achievement count from 0 to 2 does not decrease the score. -/
theorem calculate_resume_score_monotone_witness :
    (1 ≤ 3 ∧ 0 ≤ 2) ∧
      calculate_resume_score
          { sections_found := 3, word_count := 400, skills_found := 4,
            action_verbs := 1, quantified_achievements := 0,
            contact_info := true, grammar_issues := 0 }
        ≤ calculate_resume_score
          { sections_found := 3, word_count := 400, skills_found := 4,
            action_verbs := 3, quantified_achievements := 2,
            contact_info := true, grammar_issues := 0 } :=
  ⟨⟨by decide, by decide⟩,
    calculate_resume_score_monotone
      { sections_found := 3, word_count := 400, skills_found := 4,
        action_verbs := 1, quantified_achievements := 0,
        contact_info := true, grammar_issues := 0 }
      1 3 0 2 (by decide) (by decide)⟩

/-- Helper: the underlying similarity computation performs no emptiness
check of its own — with an empty first document (and a vocabulary coming
from the second) it returns the score 0 rather than raising: the empty
document's row is zero, so the cosine similarity is 0. -/
lemma tfidf_similarity_empty_left (b : String) (h : sklearnVocab ["", b] ≠ []) :
    calculate_tfidf_similarity "" b = .ok 0 := by
  unfold calculate_tfidf_similarity
  rw [if_neg h]
  have hz : cosineSim (sklearnVocab ["", b]).toFinset
      (tfidfWeight ["", b] "") (tfidfWeight ["", b] b) = 0 := by
    unfold cosineSim
    refine Finset.sum_eq_zero fun t _ => ?_
    have hu : tfidfWeight ["", b] "" t = 0 := by
      unfold tfidfWeight termCount
      have : sklearnAnalyze "" = [] := rfl
      rw [this]
      simp
    unfold normalizedRow
    rw [hu]
    simp
  rw [hz, zero_mul]

/-- C1 counterexample: the claim asserts
`compute_similarity("", "Python developer")` raises an
`InsufficientTextError`; the code's similarity computation instead fits the
vectorizer (the vocabulary comes from the job description), finds the empty
resume orthogonal to it, and returns the value 0 without any error. -/
theorem tfidf_similarity_empty_resume_returns_zero :
    calculate_tfidf_similarity "" "Python developer" = .ok 0 :=
  tfidf_similarity_empty_left "Python developer" (by decide)

/-- C1 (amended): the empty-input precondition is enforced by
`calculate_ats_score` itself, which returns a user-facing fallback message —
never an exception — when no file is uploaded, when the job description is
whitespace-only (Python's `strip`), or when the extracted resume text is
empty; the underlying similarity computation performs no emptiness check and
returns `0` for `("", "Python developer")`. -/
theorem ats_score_empty_input_message :
    (∀ job_description,
      calculate_ats_score none job_description =
        .message "Please upload a resume file and provide a job description.") ∧
    (∀ resume_text job_description, pyStrip job_description = "" →
      calculate_ats_score (some resume_text) job_description =
        .message "Please upload a resume file and provide a job description.") ∧
    (∀ job_description, pyStrip job_description ≠ "" →
      calculate_ats_score (some "") job_description =
        .message "Could not extract text from resume file.") ∧
    calculate_tfidf_similarity "" "Python developer" = .ok 0 := by
  refine ⟨fun j => rfl, fun r j h => ?_, fun j h => ?_, ?_⟩
  · simp only [calculate_ats_score]
    rw [if_pos h]
  · simp only [calculate_ats_score]
    rw [if_neg h]
    simp
  · exact tfidf_similarity_empty_left "Python developer" (by decide)

/-- Witness for C1 (amended) at concrete inputs. -/
theorem ats_score_empty_input_message_witness :
    (calculate_ats_score (some "some resume text") "   " =
        .message "Please upload a resume file and provide a job description.") ∧
    (calculate_ats_score (some "") "Python developer" =
        .message "Could not extract text from resume file.") :=
  ⟨ats_score_empty_input_message.2.1 "some resume text" "   " (by decide),
    ats_score_empty_input_message.2.2.1 "Python developer" (by decide)⟩

/-- Helper: when both documents survive the guards but vectorization finds
an empty vocabulary, `calculate_ats_score` catches the resulting
`ValueError` and returns its text as a user-facing message string. -/
lemma ats_score_empty_vocab_message (resume_text job_description : String)
    (hr : resume_text ≠ "") (hj : pyStrip job_description ≠ "")
    (hv : sklearnVocab [resume_text, job_description] = []) :
    calculate_ats_score (some resume_text) job_description =
      .message "Error calculating ATS score: empty vocabulary; perhaps the documents only contain stop words" := by
  simp only [calculate_ats_score]
  rw [if_neg hj, if_neg hr]
  have hb : atsBody resume_text job_description = .error .emptyVocabulary := by
    unfold atsBody calculate_tfidf_similarity
    rw [if_pos hv]
    rfl
  rw [hb]
  rfl

/-- C2 (amended): a vectorization failure (for example a document consisting
entirely of stopwords, yielding an empty vocabulary) is not propagated as an
exception to the caller — but neither is it converted to a zero score with
empty keyword sets: `calculate_ats_score` catches it and returns an
error-message string (with `None` in the second tuple slot). -/
theorem ats_score_empty_vocab_returns_error_message
    (resume_text job_description : String)
    (hr : resume_text ≠ "") (hj : pyStrip job_description ≠ "")
    (hv : sklearnVocab [resume_text, job_description] = []) :
    calculate_ats_score (some resume_text) job_description =
      .message ("Error calculating ATS score: " ++ PyErr.emptyVocabulary.msg) :=
  ats_score_empty_vocab_message resume_text job_description hr hj hv

/-- Witness for C2 (amended): two stopword-only documents. -/
theorem ats_score_empty_vocab_returns_error_message_witness :
    calculate_ats_score (some "of the") "and to" =
      .message ("Error calculating ATS score: " ++ PyErr.emptyVocabulary.msg) :=
  ats_score_empty_vocab_returns_error_message "of the" "and to"
    (by decide) (by decide) (by decide)

/-- C2 counterexample: for the stopword-only pair the claim predicts a
recovered result with score 0 and empty keyword sets; the code instead
returns the caught exception's text as a message string (and no report). -/
theorem ats_score_empty_vocab_not_zero_report :
    calculate_ats_score (some "of the") "and to" =
      .message "Error calculating ATS score: empty vocabulary; perhaps the documents only contain stop words" :=
  ats_score_empty_vocab_message "of the" "and to" (by decide) (by decide) (by decide)

/-! ## Bounds of the similarity and match-rate values -/

/-- The smoothed idf is non-negative (indeed at least 1): the document
frequency never exceeds the corpus size, so the logarithm's argument is at
least 1. -/
lemma idf_nonneg (docs : List String) (t : String) : 0 ≤ idf docs t := by
  unfold idf
  have hdf : (docFreq docs t : ℝ) ≤ docs.length := by
    exact_mod_cast List.length_filter_le _ docs
  have h1 : (1 : ℝ) ≤ (1 + docs.length) / (1 + docFreq docs t) := by
    rw [le_div_iff₀ (by positivity)]
    linarith
  have := Real.log_nonneg h1
  linarith

/-- Tf-idf entries are non-negative. -/
lemma tfidfWeight_nonneg (docs : List String) (d t : String) :
    0 ≤ tfidfWeight docs d t :=
  mul_nonneg (Nat.cast_nonneg _) (idf_nonneg docs t)

/-- The normalisation denominator (a zero norm replaced by 1) is positive. -/
lemma normDenom_pos (V : Finset String) (u : String → ℝ) :
    0 < (if l2norm V u = 0 then 1 else l2norm V u) := by
  split
  · norm_num
  · rename_i h
    exact lt_of_le_of_ne (Real.sqrt_nonneg _) (Ne.symm h)

/-- A normalised row entry of a non-negative row entry is non-negative. -/
lemma normalizedRow_nonneg (V : Finset String) (u : String → ℝ) (t : String)
    (h : 0 ≤ u t) : 0 ≤ normalizedRow V u t :=
  div_nonneg h (normDenom_pos V u).le

/-- After ℓ² normalisation the squared norm of a row is at most 1 (it is 1
for a non-zero row and 0 for a zero row). -/
lemma sum_normalizedRow_sq_le_one (V : Finset String) (u : String → ℝ) :
    ∑ t in V, normalizedRow V u t ^ 2 ≤ 1 := by
  have hnn : (0 : ℝ) ≤ ∑ t in V, u t ^ 2 :=
    Finset.sum_nonneg fun t _ => sq_nonneg _
  by_cases h : l2norm V u = 0
  · have hsum : ∑ t in V, u t ^ 2 = 0 := by
      have hsq : Real.sqrt (∑ t in V, u t ^ 2) = 0 := h
      nlinarith [Real.sq_sqrt hnn]
    have : ∑ t in V, normalizedRow V u t ^ 2 = ∑ t in V, u t ^ 2 := by
      unfold normalizedRow
      rw [if_pos h]
      simp
    rw [this, hsum]
    norm_num
  · have hpos : 0 < l2norm V u :=
      lt_of_le_of_ne (Real.sqrt_nonneg _) (Ne.symm h)
    have hsq : l2norm V u ^ 2 = ∑ t in V, u t ^ 2 := Real.sq_sqrt hnn
    have heq : ∑ t in V, normalizedRow V u t ^ 2
        = (∑ t in V, u t ^ 2) / l2norm V u ^ 2 := by
      unfold normalizedRow
      rw [if_neg h]
      rw [Finset.sum_div]
      refine Finset.sum_congr rfl fun t _ => ?_
      rw [div_pow]
    rw [heq, ← hsq, div_self (by positivity)]

/-- Cosine similarity of ℓ²-normalised rows never exceeds 1
(Cauchy–Schwarz). -/
lemma cosineSim_le_one (V : Finset String) (u v : String → ℝ) :
    cosineSim V u v ≤ 1 := by
  unfold cosineSim
  have cs := Finset.sum_mul_sq_le_sq_mul_sq V (normalizedRow V u) (normalizedRow V v)
  have hf := sum_normalizedRow_sq_le_one V u
  have hg := sum_normalizedRow_sq_le_one V v
  have hf0 : (0 : ℝ) ≤ ∑ t in V, normalizedRow V u t ^ 2 :=
    Finset.sum_nonneg fun t _ => sq_nonneg _
  have hg0 : (0 : ℝ) ≤ ∑ t in V, normalizedRow V v t ^ 2 :=
    Finset.sum_nonneg fun t _ => sq_nonneg _
  nlinarith [sq_nonneg ((∑ t in V, normalizedRow V u t * normalizedRow V v t) - 1)]

/-- Cosine similarity of rows with non-negative entries is non-negative. -/
lemma cosineSim_nonneg (V : Finset String) (u v : String → ℝ)
    (hu : ∀ t ∈ V, 0 ≤ u t) (hv : ∀ t ∈ V, 0 ≤ v t) :
    0 ≤ cosineSim V u v :=
  Finset.sum_nonneg fun t ht =>
    mul_nonneg (normalizedRow_nonneg V u t (hu t ht))
      (normalizedRow_nonneg V v t (hv t ht))

/-- C6: whenever the TF-IDF similarity is defined (the vectorizer fits), its
value lies in [0, 100], and the keyword match rate of
`calculate_keyword_match` always lies in [0, 100]. -/
theorem similarity_and_match_rate_bounds :
    (∀ a b s, calculate_tfidf_similarity a b = .ok s → 0 ≤ s ∧ s ≤ 100) ∧
    (∀ resume_text job_description,
      0 ≤ calculate_keyword_match resume_text job_description ∧
        calculate_keyword_match resume_text job_description ≤ 100) := by
  constructor
  · intro a b s h
    unfold calculate_tfidf_similarity at h
    by_cases hv : sklearnVocab [a, b] = []
    · rw [if_pos hv] at h
      cases h
    · rw [if_neg hv] at h
      have hs : cosineSim (sklearnVocab [a, b]).toFinset
          (tfidfWeight [a, b] a) (tfidfWeight [a, b] b) * 100 = s := by
        cases h
        rfl
      have h0 : 0 ≤ cosineSim (sklearnVocab [a, b]).toFinset
          (tfidfWeight [a, b] a) (tfidfWeight [a, b] b) :=
        cosineSim_nonneg _ _ _ (fun t _ => tfidfWeight_nonneg _ _ _)
          (fun t _ => tfidfWeight_nonneg _ _ _)
      have h1 := cosineSim_le_one (sklearnVocab [a, b]).toFinset
        (tfidfWeight [a, b] a) (tfidfWeight [a, b] b)
      constructor
      · nlinarith
      · nlinarith
  · intro r j
    simp only [calculate_keyword_match]
    split
    · norm_num
    · rename_i hne
      have hsub : ((alphaTokens j).toFinset \ commonWords.toFinset)
          ∩ (alphaTokens r).toFinset ⊆ (alphaTokens j).toFinset \ commonWords.toFinset :=
        Finset.inter_subset_left
      have hcard : (((((alphaTokens j).toFinset \ commonWords.toFinset)
            ∩ (alphaTokens r).toFinset).card : ℚ))
          ≤ (((alphaTokens j).toFinset \ commonWords.toFinset).card : ℚ) := by
        exact_mod_cast Finset.card_le_card hsub
      have hpos : (0 : ℚ) < (((alphaTokens j).toFinset \ commonWords.toFinset).card : ℚ) := by
        have : ((alphaTokens j).toFinset \ commonWords.toFinset).Nonempty :=
          Finset.nonempty_iff_ne_empty.mpr hne
        exact_mod_cast Finset.card_pos.mpr this
      constructor
      · positivity
      · rw [div_mul_eq_mul_div, div_le_iff₀ hpos]
        nlinarith

/-- Witness for C6 at concrete inputs: a defined similarity value and a
concrete match rate both in range. -/
theorem similarity_and_match_rate_bounds_witness :
    (0 ≤ cosineSim (sklearnVocab ["ab cd", "ab"]).toFinset
          (tfidfWeight ["ab cd", "ab"] "ab cd") (tfidfWeight ["ab cd", "ab"] "ab") * 100 ∧
      cosineSim (sklearnVocab ["ab cd", "ab"]).toFinset
          (tfidfWeight ["ab cd", "ab"] "ab cd") (tfidfWeight ["ab cd", "ab"] "ab") * 100 ≤ 100) ∧
    (0 ≤ calculate_keyword_match "python developer" "python sql" ∧
      calculate_keyword_match "python developer" "python sql" ≤ 100) :=
  ⟨similarity_and_match_rate_bounds.1 "ab cd" "ab" _
      (by unfold calculate_tfidf_similarity; rw [if_neg (by decide)]),
    similarity_and_match_rate_bounds.2 "python developer" "python sql"⟩

/-- C3: on the success path the composite ATS score of
`calculate_ats_score_advanced` equals 0.6 times the TF-IDF cosine-similarity
percentage plus 0.4 times the raw keyword-overlap percentage, where the
overlap tokenizes both lower-cased documents into alphabetic runs of length
at least 3, removes the fixed common-word stoplist from the job side, and
computes the fraction of job tokens found in the resume (0 when there are
none). -/
theorem composite_ats_score_formula (resume_text job_description : String)
    (hr : resume_text ≠ "") (hj : pyStrip job_description ≠ "")
    (hv : sklearnVocab [resume_text, job_description] ≠ []) :
    calculate_ats_score_advanced (some resume_text) job_description =
      .success
        ⟨cosineSim (sklearnVocab [resume_text, job_description]).toFinset
            (tfidfWeight [resume_text, job_description] resume_text)
            (tfidfWeight [resume_text, job_description] job_description) * 100 * (6 / 10)
          + (calculate_keyword_match resume_text job_description : ℝ) * (4 / 10),
        cosineSim (sklearnVocab [resume_text, job_description]).toFinset
            (tfidfWeight [resume_text, job_description] resume_text)
            (tfidfWeight [resume_text, job_description] job_description) * 100,
        calculate_keyword_match resume_text job_description⟩ ∧
    calculate_keyword_match resume_text job_description =
      (if (alphaTokens job_description).toFinset \ commonWords.toFinset = ∅ then 0
       else ((((alphaTokens job_description).toFinset \ commonWords.toFinset)
             ∩ (alphaTokens resume_text).toFinset).card : ℚ)
           / (((alphaTokens job_description).toFinset \ commonWords.toFinset).card : ℚ)
           * 100) := by
  constructor
  · simp only [calculate_ats_score_advanced]
    rw [if_neg hj, if_neg hr]
    unfold calculate_tfidf_similarity
    rw [if_neg hv]
  · rfl

/-- Witness for C3 at concrete documents. -/
theorem composite_ats_score_formula_witness :
    calculate_ats_score_advanced (some "python docker") "python sql aws" =
      .success
        ⟨cosineSim (sklearnVocab ["python docker", "python sql aws"]).toFinset
            (tfidfWeight ["python docker", "python sql aws"] "python docker")
            (tfidfWeight ["python docker", "python sql aws"] "python sql aws") * 100 * (6 / 10)
          + (calculate_keyword_match "python docker" "python sql aws" : ℝ) * (4 / 10),
        cosineSim (sklearnVocab ["python docker", "python sql aws"]).toFinset
            (tfidfWeight ["python docker", "python sql aws"] "python docker")
            (tfidfWeight ["python docker", "python sql aws"] "python sql aws") * 100,
        calculate_keyword_match "python docker" "python sql aws"⟩ ∧
    calculate_keyword_match "python docker" "python sql aws" =
      (if (alphaTokens "python sql aws").toFinset \ commonWords.toFinset = ∅ then 0
       else ((((alphaTokens "python sql aws").toFinset \ commonWords.toFinset)
             ∩ (alphaTokens "python docker").toFinset).card : ℚ)
           / (((alphaTokens "python sql aws").toFinset \ commonWords.toFinset).card : ℚ)
           * 100) :=
  composite_ats_score_formula "python docker" "python sql aws"
    (by decide) (by decide) (by decide)

/-! ## Order facts for the score-descending ranking -/

/-- The code-point lexicographic comparison is total. -/
lemma listLeChars_total : ∀ x y : List Char,
    listLeChars x y = true ∨ listLeChars y x = true
  | [], _ => Or.inl rfl
  | _ :: _, [] => Or.inr rfl
  | a :: as, b :: bs => by
    by_cases h1 : a.toNat < b.toNat
    · left
      simp [listLeChars, h1]
    · by_cases h2 : b.toNat < a.toNat
      · right
        simp [listLeChars, h2]
      · rcases listLeChars_total as bs with h | h
        · left
          simp [listLeChars, h1, h2, h]
        · right
          simp [listLeChars, h1, h2, h]

/-- The code-point lexicographic comparison is transitive. -/
lemma listLeChars_trans : ∀ x y z : List Char,
    listLeChars x y = true → listLeChars y z = true → listLeChars x z = true
  | [], _, _, _, _ => rfl
  | _ :: _, [], _, h, _ => by simp [listLeChars] at h
  | _ :: _, _ :: _, [], _, h => by simp [listLeChars] at h
  | a :: as, b :: bs, c :: cs, h1, h2 => by
    simp only [listLeChars] at h1 h2 ⊢
    by_cases hab : a.toNat < b.toNat
    · by_cases hbc : b.toNat < c.toNat
      · rw [if_pos (by omega)]
      · by_cases hcb : c.toNat < b.toNat
        · rw [if_neg hbc, if_pos hcb] at h2
          cases h2
        · rw [if_pos (by omega)]
    · by_cases hba : b.toNat < a.toNat
      · rw [if_neg hab, if_pos hba] at h1
        exact absurd h1 (by simp)
      · by_cases hbc : b.toNat < c.toNat
        · rw [if_pos (by omega)]
        · by_cases hcb : c.toNat < b.toNat
          · rw [if_neg hbc, if_pos hcb] at h2
            exact absurd h2 (by simp)
          · rw [if_neg (by omega), if_neg (by omega)]
            rw [if_neg hab, if_neg hba] at h1
            rw [if_neg hbc, if_neg hcb] at h2
            exact listLeChars_trans as bs cs h1 h2

/-- Unfolding of the score-descending sort key into its arithmetic parts. -/
lemma countDescKey_iff (text a b : String) :
    countDescKey text a b = true ↔
      (termCount text b < termCount text a ∨
        (termCount text a = termCount text b ∧ strLe a b = true)) := by
  simp [countDescKey]

/-- The sort key is total. -/
lemma countDescKey_total (text : String) (a b : String) :
    countDescKey text a b = true ∨ countDescKey text b a = true := by
  rcases Nat.lt_trichotomy (termCount text a) (termCount text b) with h | h | h
  · right
    exact (countDescKey_iff text b a).mpr (Or.inl h)
  · rcases listLeChars_total a.data b.data with hs | hs
    · left
      exact (countDescKey_iff text a b).mpr (Or.inr ⟨h, hs⟩)
    · right
      exact (countDescKey_iff text b a).mpr (Or.inr ⟨h.symm, hs⟩)
  · left
    exact (countDescKey_iff text a b).mpr (Or.inl h)

/-- The sort key is transitive. -/
lemma countDescKey_trans (text : String) (a b c : String)
    (h1 : countDescKey text a b = true) (h2 : countDescKey text b c = true) :
    countDescKey text a c = true := by
  rw [countDescKey_iff] at h1 h2 ⊢
  rcases h1 with h1 | ⟨h1e, h1s⟩ <;> rcases h2 with h2 | ⟨h2e, h2s⟩
  · exact Or.inl (h2.trans h1)
  · exact Or.inl (by omega)
  · exact Or.inl (by omega)
  · exact Or.inr ⟨by omega, listLeChars_trans a.data b.data c.data h1s h2s⟩

/-- The sort key weakly orders term counts. -/
lemma countDescKey_count_le (text a b : String)
    (h : countDescKey text a b = true) : termCount text b ≤ termCount text a := by
  rw [countDescKey_iff] at h
  rcases h with h | ⟨h, _⟩ <;> omega

/-- The score-descending ranking is a permutation of its input. -/
lemma rankByScoreDesc_perm (text : String) (features : List String) :
    (rankByScoreDesc text features).Perm features :=
  List.perm_insertionSort _ _

/-- The score-descending ranking is sorted by the sort key. -/
lemma rankByScoreDesc_sorted (text : String) (features : List String) :
    (rankByScoreDesc text features).Pairwise
      (fun a b => countDescKey text a b = true) := by
  haveI : IsTotal String (fun a b => countDescKey text a b = true) :=
    ⟨countDescKey_total text⟩
  haveI : IsTrans String (fun a b => countDescKey text a b = true) :=
    ⟨countDescKey_trans text⟩
  exact List.sorted_insertionSort _ _

/-- Membership in the single-document vocabulary is membership in the
analyzed token multiset. -/
lemma mem_ekVocab (text t : String) :
    t ∈ ekVocab text ↔ t ∈ sklearnAnalyze text := by
  unfold ekVocab sklearnVocab
  rw [(List.perm_insertionSort _ _).mem_iff, List.mem_dedup]
  simp

/-- Every term of the capped feature list is a vocabulary term. -/
lemma mem_ekFeatures (text t : String) (h : t ∈ ekFeatures text) :
    t ∈ ekVocab text := by
  unfold ekFeatures at h
  rw [(List.perm_insertionSort _ _).mem_iff] at h
  exact (rankByScoreDesc_perm text (ekVocab text)).mem_iff.mp
    ((List.take_sublist 50 _).mem h)

/-- Vocabulary terms occur in the document, so their count is positive. -/
lemma termCount_pos_of_mem_ekVocab (text t : String) (h : t ∈ ekVocab text) :
    1 ≤ termCount text t := by
  unfold termCount
  exact List.count_pos_iff.mpr ((mem_ekVocab text t).mp h)

/-- The capped feature list has no duplicates. -/
lemma ekFeatures_nodup (text : String) : (ekFeatures text).Nodup := by
  unfold ekFeatures
  rw [(List.perm_insertionSort _ _).nodup_iff]
  refine (List.take_sublist 50 _).nodup ?_
  rw [(rankByScoreDesc_perm text (ekVocab text)).nodup_iff]
  unfold ekVocab sklearnVocab
  rw [(List.perm_insertionSort _ _).nodup_iff]
  exact List.nodup_dedup _

/-- At most 50 features survive the `max_features` cap. -/
lemma ekFeatures_length_le (text : String) : (ekFeatures text).length ≤ 50 := by
  unfold ekFeatures
  rw [(List.perm_insertionSort _ _).length_eq]
  exact List.length_take_le 50 _

/-- Each feature's squared count is bounded by the squared row norm. -/
lemma termCount_sq_le_ekRowSq (text t : String) (h : t ∈ ekFeatures text) :
    termCount text t ^ 2 ≤ ekRowSq text := by
  unfold ekRowSq
  exact List.single_le_sum (fun x _ => Nat.zero_le x) _
    (List.mem_map_of_mem (fun t => termCount text t ^ 2) h)

/-- The squared row norm is positive whenever there is a feature. -/
lemma ekRowSq_pos (text t : String) (h : t ∈ ekFeatures text) :
    1 ≤ ekRowSq text := by
  have hc := termCount_pos_of_mem_ekVocab text t (mem_ekFeatures text t h)
  have := termCount_sq_le_ekRowSq text t h
  nlinarith

/-- Helper: on its success path `extract_keywords` never returns an empty
keyword list.  The head of the score-descending ranking has the maximal term
count; with at most 50 capped features the squared row norm is at most
`50·c²`, so the head's normalised score exceeds 0.1 (the filter keeps it),
and it survives the `[:20]` slice.  Consequently the
`len(matching)/len(job_keywords)` division in `create_ats_report` can never
see an empty job keyword list. -/
lemma extract_keywords_ok_ne_nil (text : String) (ks : List String)
    (h : extract_keywords text = .ok ks) : ks ≠ [] := by
  unfold extract_keywords at h
  by_cases hv : ekVocab text = []
  · rw [if_pos hv] at h
    cases h
  · rw [if_neg hv] at h
    have hks : ks = ((rankByScoreDesc text (ekFeatures text)).take 20).filter
        (fun t => decide (ekRowSq text < 100 * termCount text t ^ 2)) := by
      cases h
      rfl
    have hfne : ekFeatures text ≠ [] := by
      intro hnil
      unfold ekFeatures at hnil
      have hp := List.perm_insertionSort (fun a b => strLe a b = true)
        ((rankByScoreDesc text (ekVocab text)).take 50)
      rw [hnil] at hp
      have h50 := hp.symm.eq_nil
      rcases List.take_eq_nil_iff.mp h50 with h' | h'
      · cases h'
      · have hp2 := rankByScoreDesc_perm text (ekVocab text)
        rw [h'] at hp2
        exact hv hp2.symm.eq_nil
    obtain ⟨hd, tl, hL⟩ : ∃ hd tl, rankByScoreDesc text (ekFeatures text) = hd :: tl := by
      cases hLst : rankByScoreDesc text (ekFeatures text) with
      | nil =>
        have hp2 := rankByScoreDesc_perm text (ekFeatures text)
        rw [hLst] at hp2
        exact absurd hp2.symm.eq_nil hfne
      | cons a b => exact ⟨a, b, rfl⟩
    have hmemL : hd ∈ rankByScoreDesc text (ekFeatures text) := by
      rw [hL]
      exact List.mem_cons_self hd tl
    have hmem : hd ∈ ekFeatures text :=
      (rankByScoreDesc_perm text (ekFeatures text)).mem_iff.mp hmemL
    have hdom : ∀ x ∈ ekFeatures text, termCount text x ≤ termCount text hd := by
      intro x hx
      have hxL : x ∈ hd :: tl := by
        rw [← hL]
        exact (rankByScoreDesc_perm text (ekFeatures text)).mem_iff.mpr hx
      rcases List.mem_cons.mp hxL with rfl | hxtl
      · exact le_refl _
      · have hsorted := rankByScoreDesc_sorted text (ekFeatures text)
        rw [hL] at hsorted
        exact countDescKey_count_le text hd x
          ((List.pairwise_cons.mp hsorted).1 x hxtl)
    have hch : 1 ≤ termCount text hd :=
      termCount_pos_of_mem_ekVocab text hd (mem_ekFeatures text hd hmem)
    have hS : ekRowSq text ≤ 50 * termCount text hd ^ 2 := by
      have hb := List.sum_le_card_nsmul
        ((ekFeatures text).map (fun t => termCount text t ^ 2))
        (termCount text hd ^ 2) ?_
      · rw [List.length_map, smul_eq_mul] at hb
        calc ekRowSq text
            ≤ (ekFeatures text).length * termCount text hd ^ 2 := hb
          _ ≤ 50 * termCount text hd ^ 2 :=
              Nat.mul_le_mul_right _ (ekFeatures_length_le text)
      · intro x hx
        obtain ⟨y, hy, rfl⟩ := List.mem_map.mp hx
        exact Nat.pow_le_pow_left (hdom y hy) 2
    have hfilter : ekRowSq text < 100 * termCount text hd ^ 2 := by nlinarith
    rw [hks, hL]
    rw [show (20 : ℕ) = 19 + 1 from rfl, List.take_succ_cons]
    rw [List.filter_cons_of_pos (by simpa using hfilter)]
    exact List.cons_ne_nil _ _

/-- C4 (amended): the keyword overlap computed by `calculate_ats_score` and
`create_ats_report` yields `matched = job ∩ resume`,
`missing = job - resume`, and
`match_rate = |matched| / |job_keywords| · 100` whenever the job keyword
list is non-empty; the code has no zero guard (an empty list would raise
`ZeroDivisionError`), but `extract_keywords` never returns an empty list on
success, so the division is always defined on the pipeline's own inputs. -/
theorem keyword_overlap_matched_missing_rate :
    (∀ (ats : ℝ) (job_keywords resume_keywords : List String),
      job_keywords ≠ [] →
      create_ats_report ats (matchingKeywords job_keywords resume_keywords)
          (missingKeywords job_keywords resume_keywords)
          job_keywords resume_keywords
        = .ok ⟨ats, job_keywords.toFinset ∩ resume_keywords.toFinset,
            job_keywords.toFinset \ resume_keywords.toFinset,
            job_keywords, resume_keywords,
            ((job_keywords.toFinset ∩ resume_keywords.toFinset).card : ℚ)
              / (job_keywords.length : ℚ) * 100⟩) ∧
    (∀ text ks, extract_keywords text = .ok ks → ks ≠ []) := by
  constructor
  · intro ats jk rk hne
    unfold create_ats_report pyDiv matchingKeywords missingKeywords
    rw [if_neg (by
      intro h
      exact hne (List.length_eq_zero.mp (by exact_mod_cast h)))]
    rfl
  · exact extract_keywords_ok_ne_nil

/-- C4 counterexample: with an empty job keyword list the match-rate
computation in `create_ats_report` is a `ZeroDivisionError`, not the value 0
the claim specifies. -/
theorem match_rate_empty_job_keywords_raises :
    create_ats_report 0 ∅ ∅ [] [] = .error PyErr.zeroDivision := rfl

/-- Witness for C4 (amended) at concrete lists and a concrete document. -/
theorem keyword_overlap_matched_missing_rate_witness :
    (create_ats_report 0 (matchingKeywords ["python"] ["python", "docker"])
        (missingKeywords ["python"] ["python", "docker"])
        ["python"] ["python", "docker"]
      = .ok ⟨0,
          (["python"] : List String).toFinset ∩ (["python", "docker"] : List String).toFinset,
          (["python"] : List String).toFinset \ (["python", "docker"] : List String).toFinset,
          ["python"], ["python", "docker"],
          (((["python"] : List String).toFinset
              ∩ (["python", "docker"] : List String).toFinset).card : ℚ)
            / ((["python"] : List String).length : ℚ) * 100⟩) ∧
    (["developer", "python", "python developer"] : List String) ≠ [] :=
  ⟨keyword_overlap_matched_missing_rate.1 0 ["python"] ["python", "docker"]
      (by decide),
    keyword_overlap_matched_missing_rate.2 "python developer"
      ["developer", "python", "python developer"] rfl⟩

/-! ## The real-valued scores behind `extract_keywords` -/

/-- For the one-document corpus every vocabulary term has document frequency
1, so the smoothed idf is `ln(2/2) + 1 = 1`. -/
lemma idf_single_doc (text t : String) (h : t ∈ ekVocab text) :
    idf [text] t = 1 := by
  unfold idf docFreq
  have hmem := (mem_ekVocab text t).mp h
  have hcont : (sklearnAnalyze text).contains t = true := List.elem_iff.mpr hmem
  have hfl : List.filter (fun d => (sklearnAnalyze d).contains t) [text] = [text] := by
    simp [hmem]
  rw [hfl]
  norm_num [Real.log_one]

/-- For a single-document corpus the unnormalised tf-idf weight is the raw
term count. -/
lemma tfidfWeight_single_doc (text t : String) (h : t ∈ ekVocab text) :
    tfidfWeight [text] text t = (termCount text t : ℝ) := by
  unfold tfidfWeight
  rw [idf_single_doc text t h, mul_one]

/-- The ℓ² norm of the one-document tf-idf row over the capped features is
the square root of the integer squared row norm. -/
lemma l2norm_ekFeatures (text : String) :
    l2norm (ekFeatures text).toFinset (tfidfWeight [text] text)
      = Real.sqrt (ekRowSq text) := by
  unfold l2norm
  apply congrArg
  rw [List.sum_toFinset _ (ekFeatures_nodup text)]
  have hmap : (ekFeatures text).map (fun t => tfidfWeight [text] text t ^ 2)
      = (ekFeatures text).map (fun t => ((termCount text t ^ 2 : ℕ) : ℝ)) := by
    refine List.map_congr_left fun t ht => ?_
    rw [tfidfWeight_single_doc text t (mem_ekFeatures text t ht)]
    push_cast
    ring
  rw [hmap]
  unfold ekRowSq
  rw [Nat.cast_list_sum, List.map_map]
  exact congrArg List.sum (List.map_congr_left fun t _ => rfl)

/-- The real-valued score `extract_keywords` ranks by: for a capped feature
it is the raw count over the row norm. -/
lemma keywordWeight_eq (text t : String) (h : t ∈ ekFeatures text) :
    keywordWeight text t = (termCount text t : ℝ) / Real.sqrt (ekRowSq text) := by
  unfold keywordWeight normalizedRow
  rw [l2norm_ekFeatures]
  have hS : 1 ≤ ekRowSq text := ekRowSq_pos text t h
  have hpos : (0 : ℝ) < Real.sqrt (ekRowSq text) :=
    Real.sqrt_pos.mpr (by exact_mod_cast hS)
  rw [if_neg (ne_of_gt hpos), tfidfWeight_single_doc text t (mem_ekFeatures text t h)]

/-- Comparing capped features by raw count compares their real scores. -/
lemma keywordWeight_le_of_count_le (text a b : String)
    (ha : a ∈ ekFeatures text) (hb : b ∈ ekFeatures text)
    (h : termCount text b ≤ termCount text a) :
    keywordWeight text b ≤ keywordWeight text a := by
  rw [keywordWeight_eq text a ha, keywordWeight_eq text b hb]
  gcongr

/-- The filter condition `100·c² > rowSq` is exactly `score > 0.1` for the
real score. -/
lemma keywordWeight_gt_tenth (text t : String) (h : t ∈ ekFeatures text)
    (hf : ekRowSq text < 100 * termCount text t ^ 2) :
    1 / 10 < keywordWeight text t := by
  rw [keywordWeight_eq text t h]
  have hS : 1 ≤ ekRowSq text := ekRowSq_pos text t h
  have hc : 1 ≤ termCount text t :=
    termCount_pos_of_mem_ekVocab text t (mem_ekFeatures text t h)
  have hcR : (1 : ℝ) ≤ (termCount text t : ℝ) := by exact_mod_cast hc
  have hSpos : (0 : ℝ) < Real.sqrt (ekRowSq text) :=
    Real.sqrt_pos.mpr (by exact_mod_cast hS)
  have hsqrt : Real.sqrt (ekRowSq text) < 10 * (termCount text t : ℝ) := by
    rw [Real.sqrt_lt' (by positivity)]
    have : (ekRowSq text : ℝ) < 100 * (termCount text t : ℝ) ^ 2 := by
      exact_mod_cast hf
    nlinarith
  have h110 : (1 : ℝ) / 10 = (termCount text t : ℝ) / (10 * (termCount text t : ℝ)) := by
    rw [div_eq_div_iff (by norm_num) (by positivity)]
    ring
  rw [h110]
  exact div_lt_div_of_pos_left (by positivity) hSpos hsqrt

/-- C5: on its success path `extract_keywords` returns at most 20 terms,
ranked by their real TF-IDF score (one-document corpus, ℓ²-normalised row)
in descending order, every returned term having score strictly above 0.1. -/
theorem extract_keywords_ranked_capped_filtered (text : String) (ks : List String)
    (h : extract_keywords text = .ok ks) :
    ks.length ≤ 20 ∧
    List.Pairwise (fun a b => keywordWeight text b ≤ keywordWeight text a) ks ∧
    ∀ t ∈ ks, 1 / 10 < keywordWeight text t := by
  unfold extract_keywords at h
  by_cases hv : ekVocab text = []
  · rw [if_pos hv] at h
    cases h
  · rw [if_neg hv] at h
    have hks : ks = ((rankByScoreDesc text (ekFeatures text)).take 20).filter
        (fun t => decide (ekRowSq text < 100 * termCount text t ^ 2)) := by
      cases h
      rfl
    have hsub : (((rankByScoreDesc text (ekFeatures text)).take 20).filter
          (fun t => decide (ekRowSq text < 100 * termCount text t ^ 2))).Sublist
        (rankByScoreDesc text (ekFeatures text)) :=
      (List.filter_sublist _).trans (List.take_sublist 20 _)
    refine ⟨?_, ?_, ?_⟩
    · rw [hks]
      exact le_trans (List.length_filter_le _ _) (List.length_take_le 20 _)
    · rw [hks]
      refine List.Pairwise.imp_of_mem ?_
        (List.Pairwise.sublist hsub (rankByScoreDesc_sorted text (ekFeatures text)))
      intro a b ha hb hr
      have haf : a ∈ ekFeatures text :=
        (rankByScoreDesc_perm text (ekFeatures text)).mem_iff.mp (hsub.subset ha)
      have hbf : b ∈ ekFeatures text :=
        (rankByScoreDesc_perm text (ekFeatures text)).mem_iff.mp (hsub.subset hb)
      exact keywordWeight_le_of_count_le text a b haf hbf
        (countDescKey_count_le text a b hr)
    · intro t ht
      rw [hks] at ht
      obtain ⟨htake, hp⟩ := List.mem_filter.mp ht
      have htf : t ∈ ekFeatures text :=
        (rankByScoreDesc_perm text (ekFeatures text)).mem_iff.mp
          ((List.take_sublist 20 _).subset htake)
      exact keywordWeight_gt_tenth text t htf (of_decide_eq_true hp)

/-- Witness for C5 at a concrete document: the extraction succeeds with four
keywords, and its guarantees are instantiated (the last at the keyword
`python`, the term with the highest count). -/
theorem extract_keywords_ranked_capped_filtered_witness :
    (["python", "python python", "python sql", "sql"] : List String).length ≤ 20 ∧
    List.Pairwise
      (fun a b => keywordWeight "python python sql" b ≤ keywordWeight "python python sql" a)
      ["python", "python python", "python sql", "sql"] ∧
    1 / 10 < keywordWeight "python python sql" "python" := by
  have H := extract_keywords_ranked_capped_filtered "python python sql"
    ["python", "python python", "python sql", "sql"] rfl
  exact ⟨H.1, H.2.1, H.2.2 "python" (by decide)⟩
